import Mathlib

/-
Verification of the Car-Speed-tracker motion-tracking and speed-estimation
pipeline.  Shallow embedding of the relevant parts of `video_processor.py`
(`FrameBuffer`, `VideoProcessor.progress`), `detector.py`
(`VehicleSpeedDetector`), and `tracker.py` (`VehicleTrack`,
`MultiVehicleTracker`).

Conventions of the embedding:
- Python floats are modelled as exact rationals (ℚ); the one place where a
  transcendental constant matters (`np.cos(np.radians(30))` in
  `set_video_info`) is modelled over ℝ with `Real.cos`.
- `np.linalg.norm` / `np.sqrt` only ever feed through multiplications and
  comparisons, so functions that need them are parametrised by the norm
  (`normFn` / `sqrtQ`); where only comparisons of distances against
  thresholds matter (tracker association) squared distances are compared
  against the squared threshold (50² = 2500), a strictly monotone transform
  that preserves every `<` comparison of the source.
- Python `queue.Queue`, `list` and insertion-ordered `dict` are modelled as
  Lean lists (a dict as an association list in insertion order).
-/

namespace CarSpeed

/-! ### video_processor.py — FrameBuffer

`FrameBuffer` wraps `queue.Queue(maxsize=max_size)`.  `put(frame)` uses
`block=False`: it raises (and the method returns `False`) exactly when the
queue has a positive `maxsize` and is at capacity.  `get()` with
`block=False` returns the front element or `None` when empty.  `clear()`
drains the queue. -/

structure FrameBuffer (α : Type) where
  maxsize : ℕ
  buffer : List α

def FrameBuffer.put {α : Type} (b : FrameBuffer α) (f : α) : Bool × FrameBuffer α :=
  if 0 < b.maxsize ∧ b.maxsize ≤ b.buffer.length then
    (false, b)
  else
    (true, { b with buffer := b.buffer ++ [f] })

def FrameBuffer.get {α : Type} (b : FrameBuffer α) : Option α × FrameBuffer α :=
  match b with
  | ⟨m, []⟩ => (none, ⟨m, []⟩)
  | ⟨m, x :: xs⟩ => (some x, ⟨m, xs⟩)

def FrameBuffer.clear {α : Type} (b : FrameBuffer α) : FrameBuffer α :=
  { b with buffer := [] }

/-- A single client interaction with the buffer. -/
inductive BufOp (α : Type) where
  | put (f : α)
  | get
  | clear

def FrameBuffer.applyOp {α : Type} (b : FrameBuffer α) : BufOp α → FrameBuffer α
  | .put f => (b.put f).2
  | .get => b.get.2
  | .clear => b.clear

def FrameBuffer.runOps {α : Type} (b : FrameBuffer α) (ops : List (BufOp α)) : FrameBuffer α :=
  ops.foldl FrameBuffer.applyOp b

/-! ### video_processor.py — VideoProcessor.progress

`return (self.current_frame_no / self.total_frames) * 100 if
self.total_frames > 0 else 0`.  `current_frame_no` counts read frames (a
natural number); `total_frames` comes from `int(cap.get(CAP_PROP_FRAME_COUNT))`
and may be non-positive for streams, hence ℤ. -/

def progress (current_frame_no : ℕ) (total_frames : ℤ) : ℚ :=
  if 0 < total_frames then
    ((current_frame_no : ℚ) / (total_frames : ℚ)) * 100
  else 0

/-! ### detector.py — VehicleSpeedDetector

The speed pipeline of `process_frame` (lines 83–140): once a vehicle is
selected and a closest motion blob was found, its center is appended to
`prev_centers` (window `speed_window`, default 5, oldest popped), per-gap
speeds are computed with a perspective correction, combined by a
`np.linspace(0.5, 1.0, n)`-weighted average, rate limited against the last
entry of `prev_speeds` by `max_speed_change` (default 10), appended to
`prev_speeds` (same window), and the median of `prev_speeds` is drawn on the
frame while the clamped value itself is returned to the caller. -/

/-- np.sign on ℚ. -/
def signQ (x : ℚ) : ℚ :=
  if 0 < x then 1 else if x < 0 then -1 else 0

/-- Lines 116–120: `if abs(speed_kmh - prev_speed) > max_change:
speed_kmh = prev_speed + max_change * np.sign(speed_kmh - prev_speed)`. -/
def clampSpeed (prev_speed max_change new_speed : ℚ) : ℚ :=
  if max_change < |new_speed - prev_speed| then
    prev_speed + max_change * signQ (new_speed - prev_speed)
  else new_speed

/-- Lines 91–93 / 122–124: `xs.append(x); if len(xs) > window: xs.pop(0)`. -/
def slideAppend {α : Type} (window : ℕ) (xs : List α) (x : α) : List α :=
  let ys := xs ++ [x]
  if window < ys.length then ys.drop 1 else ys

/-- Insert into an ascending list (helper for the sort behind `np.median`). -/
def insertAsc (x : ℚ) : List ℚ → List ℚ
  | [] => [x]
  | y :: ys => if x ≤ y then x :: y :: ys else y :: insertAsc x ys

/-- Ascending sort of a list of rationals (`np.median` sorts its input). -/
def sortAsc : List ℚ → List ℚ
  | [] => []
  | x :: xs => insertAsc x (sortAsc xs)

/-- `np.median`: middle element of the sorted list for odd length, mean of
the two middle elements for even length (0 as the unused empty default). -/
def medianQ (xs : List ℚ) : ℚ :=
  let s := sortAsc xs
  let n := s.length
  if n % 2 = 1 then s.getD (n / 2) 0
  else (s.getD (n / 2 - 1) 0 + s.getD (n / 2) 0) / 2

/-- Line 103: `perspective_factor = 1.0 + (curr[1] / frame.shape[0]) * 0.5`. -/
def perspectiveFactor (frame_height center_y : ℚ) : ℚ :=
  1 + (center_y / frame_height) * 0.5

/-- Lines 99–109: per-gap speed for one consecutive pair of centers.
`normFn dx dy` stands for `np.linalg.norm(curr - prev)`. -/
def gapSpeed (normFn : ℚ → ℚ → ℚ) (scale_m_per_px fps frame_height : ℚ)
    (prev curr : ℚ × ℚ) : ℚ :=
  let perspective_factor := perspectiveFactor frame_height curr.2
  let pixel_distance := normFn (curr.1 - prev.1) (curr.2 - prev.2)
  let distance_m := pixel_distance * scale_m_per_px * perspective_factor
  let time_s := 1 / fps
  let speed_mps := distance_m / time_s
  speed_mps * 3.6

/-- Line 112: `np.linspace(0.5, 1.0, n)` (singleton start value for n = 1). -/
def linspaceW (n : ℕ) : List ℚ :=
  if n = 1 then [0.5]
  else (List.range n).map (fun i => 0.5 + (i : ℚ) * (0.5 / ((n : ℚ) - 1)))

/-- Line 113: `np.average(xs, weights=ws)` = Σ wᵢxᵢ / Σ wᵢ. -/
def weightedAverage (xs ws : List ℚ) : ℚ :=
  ((ws.zip xs).map (fun p => p.1 * p.2)).sum / ws.sum

/-- The state of `VehicleSpeedDetector` relevant to the speed pipeline. -/
structure VehicleSpeedDetector where
  known_distance_m : ℚ
  prev_centers : List (ℚ × ℚ)
  prev_speeds : List ℚ
  scale_m_per_px : ℚ
  fps : ℚ
  object_selected : Bool
  speed_window : ℕ
  max_speed_change : ℚ

/-- Lines 90–137: the tracking-state update once a closest blob was found.
Returns the new state, the `speed_kmh` value returned to the caller, and the
`display_speed` median drawn on the frame (lines 126–136). -/
def trackUpdate (normFn : ℚ → ℚ → ℚ) (s : VehicleSpeedDetector)
    (center : ℚ × ℚ) (frame_height : ℚ) :
    VehicleSpeedDetector × Option ℚ × Option ℚ :=
  let centers1 := slideAppend s.speed_window s.prev_centers center
  if 1 < centers1.length then
    let speeds := (centers1.zip centers1.tail).map
      (fun p => gapSpeed normFn s.scale_m_per_px s.fps frame_height p.1 p.2)
    let weights := linspaceW speeds.length
    let speed0 := weightedAverage speeds weights
    let speed_kmh :=
      match s.prev_speeds.getLast? with
      | some prev_speed => clampSpeed prev_speed s.max_speed_change speed0
      | none => speed0
    let speeds1 := slideAppend s.speed_window s.prev_speeds speed_kmh
    let display_speed := medianQ speeds1
    ({ s with prev_centers := centers1, prev_speeds := speeds1 },
      some speed_kmh, some display_speed)
  else
    ({ s with prev_centers := centers1 }, none, none)

/-- Lines 83–140 of `process_frame`, as a step on the detector state.
`closest_center` is the center of `closest_contour` when one was found
(`none` both when no blob above `min_contour_area` matched and when no
object is selected, in which case `closest_contour` stays `None`).  The
second component is the `speed_kmh` returned to the caller; the third is
the median label drawn on the frame. -/
def processFrameStep (normFn : ℚ → ℚ → ℚ) (s : VehicleSpeedDetector)
    (closest_center : Option (ℚ × ℚ)) (frame_height : ℚ) :
    VehicleSpeedDetector × Option ℚ × Option ℚ :=
  match s.object_selected, closest_center with
  | true, some center => trackUpdate normFn s center frame_height
  | _, _ => (s, none, none)

/-- Lines 27–33 (`set_video_info`): `scale_m_per_px = known_distance_m /
(frame_width * np.cos(np.radians(30)))`. -/
noncomputable def set_video_info_scale (known_distance_m frame_width : ℝ) : ℝ :=
  known_distance_m / (frame_width * Real.cos (30 * Real.pi / 180))

/-- Line 31: the (unused) viewing distance computed from a 60° horizontal
field of view. -/
noncomputable def viewing_distance (frame_width : ℝ) : ℝ :=
  frame_width / (2 * Real.tan (60 * Real.pi / 180 / 2))

/-- A stand-in norm used for concrete instantiations; it agrees with the
Euclidean `np.linalg.norm` whenever both displacement components are
nonnegative and at least one of them is zero, which holds at every input it
is applied to below. -/
def normSum (dx dy : ℚ) : ℚ := dx + dy

/-- A concrete detector state used to evaluate the pipeline: one previous
center at the origin and one previous speed of 10 km/h. -/
def c1Detector : VehicleSpeedDetector :=
  { known_distance_m := 10
    prev_centers := [(0, 0)]
    prev_speeds := [10]
    scale_m_per_px := 1
    fps := 1
    object_selected := true
    speed_window := 5
    max_speed_change := 10 }

/-! ### tracker.py — VehicleTrack and MultiVehicleTracker

`MultiVehicleTracker.update` iterates over the detections of one frame; for
each it finds the nearest active track within 50 px of that track's last
position (strict comparisons, so the earliest of equally near tracks wins),
updates it (or spawns a new track), and finally drops tracks that are both
inactive and unmatched in this pass.  `time.time()` is modelled by a single
`now` parameter for the pass, and the random display color by a fixed
constant (no claim depends on it). -/

structure VehicleTrack where
  id : ℕ
  positions : List (ℚ × ℚ)
  timestamps : List ℚ
  speeds : List ℚ
  last_update : ℚ
  color : ℕ × ℕ × ℕ

/-- `is_active(timeout=1.0)`: `(time.time() - self.last_update) < timeout`. -/
def VehicleTrack.is_active (t : VehicleTrack) (now : ℚ) : Bool :=
  now - t.last_update < 1

/-- `speeds[-1] if speeds else None`. -/
def VehicleTrack.current_speed (t : VehicleTrack) : Option ℚ :=
  t.speeds.getLast?

/-- `np.mean(speeds) if speeds else None`. -/
def VehicleTrack.average_speed (t : VehicleTrack) : Option ℚ :=
  if t.speeds.isEmpty then none
  else some (t.speeds.sum / t.speeds.length)

/-- `max(speeds) if speeds else None`. -/
def VehicleTrack.max_speed (t : VehicleTrack) : Option ℚ :=
  match t.speeds with
  | [] => none
  | x :: xs => some (xs.foldl max x)

/-- Squared Euclidean distance; `np.linalg.norm(a - b) < r` for `r ≥ 0`
is equivalent to `dist2 a b < r²`, and squaring also preserves the
`dist < min_dist` bookkeeping of the association loop. -/
def dist2 (a b : ℚ × ℚ) : ℚ :=
  (a.1 - b.1) ^ 2 + (a.2 - b.2) ^ 2

structure MultiVehicleTracker where
  next_vehicle_id : ℕ
  vehicles : List (ℕ × VehicleTrack)

/-- Lines 58–68: among active tracks with a last position, the one of
strictly minimal distance to `center` that is also within the matching
threshold (50 px, i.e. squared distance 2500). -/
def findClosest (vehicles : List (ℕ × VehicleTrack)) (now : ℚ) (center : ℚ × ℚ) :
    Option ℕ :=
  (vehicles.foldl
    (fun best p =>
      if p.2.is_active now then
        match p.2.positions.getLast? with
        | none => best
        | some lastPos =>
          let d := dist2 center lastPos
          match best with
          | none => if d < 2500 then some (p.1, d) else best
          | some q => if d < q.2 ∧ d < 2500 then some (p.1, d) else best
      else best)
    none).map Prod.fst

/-- Lines 70–86: append the new position and timestamp, refresh
`last_update`, and if at least two positions exist and the time delta is
positive, append `sqrt(dx² + dy²) / dt` to `speeds` (`sqrtQ` stands for
`np.sqrt`). -/
def VehicleTrack.updateWith (sqrtQ : ℚ → ℚ) (t : VehicleTrack)
    (center : ℚ × ℚ) (now : ℚ) : VehicleTrack :=
  let speeds :=
    match t.positions.getLast?, t.timestamps.getLast? with
    | some pprev, some tprev =>
      let dt := now - tprev
      if 0 < dt then
        let dx := center.1 - pprev.1
        let dy := center.2 - pprev.2
        t.speeds ++ [sqrtQ (dx * dx + dy * dy) / dt]
      else t.speeds
    | _, _ => t.speeds
  { t with
    positions := t.positions ++ [center]
    timestamps := t.timestamps ++ [now]
    speeds := speeds
    last_update := now }

/-- Lines 88–99: a fresh track from an unmatched detection (`color`
modelled as a constant in place of `np.random.randint`). -/
def newTrack (id : ℕ) (center : ℚ × ℚ) (now : ℚ) : VehicleTrack :=
  { id := id
    positions := [center]
    timestamps := [now]
    speeds := []
    last_update := now
    color := (0, 0, 0) }

/-- Lines 54–99: processing of one detection `(x, y, w, h)` inside the
`for bbox in detections` loop, threaded through the tracker state and the
`matched_tracks` set. -/
def MultiVehicleTracker.assocOne (sqrtQ : ℚ → ℚ)
    (state : MultiVehicleTracker × List ℕ) (bbox : ℚ × ℚ × ℚ × ℚ) (now : ℚ) :
    MultiVehicleTracker × List ℕ :=
  let m := state.1
  let matched := state.2
  let center := (bbox.1 + bbox.2.2.1 / 2, bbox.2.1 + bbox.2.2.2 / 2)
  match findClosest m.vehicles now center with
  | some closest_id =>
    ({ m with vehicles := m.vehicles.map (fun p =>
        if p.1 = closest_id then (p.1, p.2.updateWith sqrtQ center now) else p) },
      matched ++ [closest_id])
  | none =>
    ({ m with
        vehicles := m.vehicles ++ [(m.next_vehicle_id, newTrack m.next_vehicle_id center now)]
        next_vehicle_id := m.next_vehicle_id + 1 },
      matched ++ [m.next_vehicle_id])

/-- Lines 48–108 (`update`): associate every detection, then keep only
tracks that are active or were matched in this pass. -/
def MultiVehicleTracker.update (sqrtQ : ℚ → ℚ) (m : MultiVehicleTracker)
    (detections : List (ℚ × ℚ × ℚ × ℚ)) (now : ℚ) : MultiVehicleTracker :=
  let step := detections.foldl (fun acc bbox => MultiVehicleTracker.assocOne sqrtQ acc bbox now) (m, [])
  { step.1 with
    vehicles := step.1.vehicles.filter
      (fun p => p.2.is_active now || (step.2.contains p.1)) }

/-- Lines 137–147 (`get_speed_statistics`): one entry per track with a
nonempty speed list, keyed by the vehicle id, holding the current, average
and maximum speed. -/
def MultiVehicleTracker.get_speed_statistics (m : MultiVehicleTracker) :
    List (ℕ × (Option ℚ × Option ℚ × Option ℚ)) :=
  (m.vehicles.filter (fun p => !p.2.speeds.isEmpty)).map
    (fun p => (p.1, (p.2.current_speed, p.2.average_speed, p.2.max_speed)))

/-- A concrete tracker holding one active track with a single position at
the origin, used to exercise `update`. -/
def c7Tracker : MultiVehicleTracker :=
  { next_vehicle_id := 1
    vehicles := [(0,
      { id := 0
        positions := [(0, 0)]
        timestamps := [0]
        speeds := []
        last_update := 10
        color := (0, 0, 0) })] }

end CarSpeed

namespace CarSpeed

/-- C2: a `FrameBuffer` of capacity `N > 0` never holds more than `N` frames
under any sequence of `put`/`get`/`clear` operations started from empty; a
`put` issued while it holds at least `N` frames returns `false` and leaves
the buffer unchanged, and a `get` on an empty buffer returns `none`. -/
theorem frameBuffer_capacity_spec {α : Type} (N : ℕ) (hN : 0 < N) :
    (∀ ops : List (BufOp α), (FrameBuffer.runOps ⟨N, []⟩ ops).buffer.length ≤ N) ∧
    (∀ (b : FrameBuffer α) (f : α), b.maxsize = N → N ≤ b.buffer.length →
      b.put f = (false, b)) ∧
    (∀ b : FrameBuffer α, b.buffer = [] → b.get = (none, b)) := by
  refine ⟨?_, ?_, ?_⟩
  · intro ops
    suffices h : ∀ (ops : List (BufOp α)) (b : FrameBuffer α),
        b.maxsize = N → b.buffer.length ≤ N →
        (FrameBuffer.runOps b ops).buffer.length ≤ N by
      exact h ops ⟨N, []⟩ rfl (by simp)
    intro ops
    induction ops with
    | nil => intro b _ hlen; exact hlen
    | cons op rest ih =>
      intro b hmax hlen
      have hstep : (b.applyOp op).maxsize = N ∧ (b.applyOp op).buffer.length ≤ N := by
        cases op with
        | put f =>
          simp only [FrameBuffer.applyOp, FrameBuffer.put]
          by_cases hfull : 0 < b.maxsize ∧ b.maxsize ≤ b.buffer.length
          · rw [if_pos hfull]
            exact ⟨hmax, hlen⟩
          · rw [if_neg hfull]
            refine ⟨hmax, ?_⟩
            show (b.buffer ++ [f]).length ≤ N
            rw [not_and_or] at hfull
            rcases hfull with h0 | hlt
            · omega
            · push_neg at hlt
              simp only [List.length_append, List.length_singleton]
              omega
        | get =>
          cases b with
          | mk m buf =>
            cases buf with
            | nil => exact ⟨hmax, by simp [FrameBuffer.applyOp, FrameBuffer.get]⟩
            | cons x xs =>
              simp only [FrameBuffer.applyOp, FrameBuffer.get]
              refine ⟨hmax, ?_⟩
              simp only [List.length_cons] at hlen
              omega
        | clear => exact ⟨hmax, by simp [FrameBuffer.applyOp, FrameBuffer.clear]⟩
      exact ih (b.applyOp op) hstep.1 hstep.2
  · intro b f hmax hlen
    have : 0 < b.maxsize ∧ b.maxsize ≤ b.buffer.length := by omega
    simp [FrameBuffer.put, this]
  · intro b hb
    cases b with
    | mk m buf => cases hb; rfl

/-- C2 witness: the theorem instantiated at capacity 1 with two puts and a
get; the buffer never exceeds one frame. -/
theorem frameBuffer_capacity_witness :
    (FrameBuffer.runOps ⟨1, []⟩ [BufOp.put (0 : ℕ), BufOp.put 1, BufOp.get]).buffer.length ≤ 1 :=
  (frameBuffer_capacity_spec 1 (by decide)).1 [BufOp.put 0, BufOp.put 1, BufOp.get]

/-! ### Helper lemmas -/

/-- The step with no closest blob leaves the detector unchanged and reports
no speed. -/
theorem processFrameStep_none (normFn : ℚ → ℚ → ℚ) (s : VehicleSpeedDetector)
    (frame_height : ℚ) : processFrameStep normFn s none frame_height = (s, none, none) := by
  unfold processFrameStep
  cases s.object_selected <;> rfl

/-- The step with no object selected leaves the detector unchanged and
reports no speed. -/
theorem processFrameStep_not_selected (normFn : ℚ → ℚ → ℚ) (s : VehicleSpeedDetector)
    (det : Option (ℚ × ℚ)) (frame_height : ℚ) (h : s.object_selected = false) :
    processFrameStep normFn s det frame_height = (s, none, none) := by
  unfold processFrameStep
  rw [h]

/-- With an object selected and a closest blob, the step is `trackUpdate`. -/
theorem processFrameStep_selected (normFn : ℚ → ℚ → ℚ) (s : VehicleSpeedDetector)
    (c : ℚ × ℚ) (frame_height : ℚ) (h : s.object_selected = true) :
    processFrameStep normFn s (some c) frame_height = trackUpdate normFn s c frame_height := by
  unfold processFrameStep
  rw [h]

/-- A sliding-window append never grows the history past the window. -/
theorem slideAppend_length {α : Type} (w : ℕ) (xs : List α) (x : α)
    (h : xs.length ≤ w) : (slideAppend w xs x).length ≤ w := by
  simp only [slideAppend]
  split
  · next hlt => simp only [List.length_drop, List.length_append, List.length_singleton]; omega
  · next hge =>
    simp only [List.length_append, List.length_singleton] at hge ⊢
    omega

/-- The last element of a sliding-window append is the appended element,
provided the window keeps at least one element. -/
theorem slideAppend_getLast {α : Type} (w : ℕ) (hw : 1 ≤ w) (xs : List α) (x : α) :
    (slideAppend w xs x).getLast? = some x := by
  simp only [slideAppend]
  split
  · next h =>
    cases xs with
    | nil => simp at h; omega
    | cons a as =>
      rw [List.cons_append, List.drop_one, List.tail_cons]
      exact List.getLast?_concat as
  · exact List.getLast?_concat xs

/-- A sliding-window append preserves an adjacency relation, provided the
appended element is related to the previous last element. -/
theorem slideAppend_chain {α : Type} (R : α → α → Prop) (w : ℕ) (xs : List α) (x : α)
    (hc : xs.Chain' R) (hx : ∀ l ∈ xs.getLast?, R l x) :
    (slideAppend w xs x).Chain' R := by
  have hbase : (xs ++ [x]).Chain' R := by
    rw [List.chain'_append]
    refine ⟨hc, List.chain'_singleton x, fun a ha b hb => ?_⟩
    simp only [List.head?_cons, Option.mem_def, Option.some.injEq] at hb
    subst hb
    exact hx a ha
  simp only [slideAppend]
  split
  · rw [List.drop_one]; exact hbase.tail
  · exact hbase

/-- np.sign has absolute value at most one. -/
theorem abs_signQ_le_one (x : ℚ) : |signQ x| ≤ 1 := by
  unfold signQ
  split_ifs <;> norm_num

/-- The rate limiter moves the new speed at most `max_change` away from the
previous one. -/
theorem clampSpeed_abs_le (prev_speed max_change new_speed : ℚ) (h : 0 ≤ max_change) :
    |clampSpeed prev_speed max_change new_speed - prev_speed| ≤ max_change := by
  unfold clampSpeed
  split
  · next hgt =>
    have heq : prev_speed + max_change * signQ (new_speed - prev_speed) - prev_speed
        = max_change * signQ (new_speed - prev_speed) := by ring
    rw [heq, abs_mul, abs_of_nonneg h]
    exact mul_le_of_le_one_right h (abs_signQ_le_one _)
  · next hle => exact not_lt.mp hle

/-- In an association list with duplicate-free keys, a key determines its
value. -/
theorem nodup_keys_mem_unique {α β : Type} {l : List (α × β)}
    (h : (l.map Prod.fst).Nodup) {a : α} {b c : β}
    (h1 : (a, b) ∈ l) (h2 : (a, c) ∈ l) : b = c := by
  induction l with
  | nil => cases h1
  | cons p t ih =>
    rw [List.map_cons, List.nodup_cons] at h
    rcases List.mem_cons.mp h1 with h1h | h1t
    · cases h1h
      rcases List.mem_cons.mp h2 with h2h | h2t
      · have := congrArg Prod.snd h2h
        exact this.symm
      · exact absurd (List.mem_map_of_mem Prod.fst h2t) h.1
    · rcases List.mem_cons.mp h2 with h2h | h2t
      · cases h2h
        exact absurd (List.mem_map_of_mem Prod.fst h1t) h.1
      · exact ih h.2 h1t h2t

/-! ### Claim theorems -/

/-- C1 counterexample: with one previous center, one previous speed of
10 km/h, unit scale and fps, and a blob whose per-gap speed evaluates to
12 km/h, `process_frame` returns 12 to the caller while the median of the
post-append `prev_speeds = [10, 12]` is 11 — the returned second component
is not the median of the speed history. -/
theorem process_frame_median_cex :
    (processFrameStep normSum c1Detector (some (10/3, 0)) 1).2.1 ≠
      some (medianQ (processFrameStep normSum c1Detector (some (10/3, 0)) 1).1.prev_speeds) := by
  norm_num [processFrameStep, trackUpdate, slideAppend, gapSpeed, perspectiveFactor,
    linspaceW, weightedAverage, clampSpeed, signQ, medianQ, sortAsc, insertAsc,
    c1Detector, normSum]

/-- C1 (amended): whenever `process_frame` computes a speed, the value
returned to the caller is the clamped weighted speed itself — the entry just
appended at the end of `prev_speeds` — while the median of the post-append
`prev_speeds` is the `display_speed` drawn on the frame; on
`[10, 12, 11, 50, 11]` that median is 11. -/
theorem process_frame_reported_speed_spec (normFn : ℚ → ℚ → ℚ)
    (s : VehicleSpeedDetector) (det : Option (ℚ × ℚ)) (frame_height : ℚ) (v : ℚ)
    (hw : 1 ≤ s.speed_window)
    (hv : (processFrameStep normFn s det frame_height).2.1 = some v) :
    (processFrameStep normFn s det frame_height).1.prev_speeds.getLast? = some v ∧
    (processFrameStep normFn s det frame_height).2.2 =
      some (medianQ (processFrameStep normFn s det frame_height).1.prev_speeds) ∧
    medianQ [10, 12, 11, 50, 11] = 11 := by
  have hmed : medianQ [10, 12, 11, 50, 11] = 11 := by decide
  cases hsel : s.object_selected with
  | false =>
    rw [processFrameStep_not_selected normFn s det frame_height hsel] at hv
    simp at hv
  | true =>
    cases det with
    | none =>
      rw [processFrameStep_none] at hv
      simp at hv
    | some c =>
      rw [processFrameStep_selected normFn s c frame_height hsel] at hv ⊢
      simp only [trackUpdate] at hv ⊢
      by_cases hlen : 1 < (slideAppend s.speed_window s.prev_centers c).length
      · rw [if_pos hlen] at hv ⊢
        simp only [Option.some.injEq] at hv
        refine ⟨?_, rfl, hmed⟩
        rw [slideAppend_getLast s.speed_window hw]
        exact congrArg some hv
      · rw [if_neg hlen] at hv
        simp at hv

/-- C1 witness: the amended theorem at the concrete counterexample state,
where the returned value is 12 and the displayed median is 11. -/
theorem process_frame_reported_speed_witness :
    (processFrameStep normSum c1Detector (some (10/3, 0)) 1).1.prev_speeds.getLast? = some 12 ∧
    (processFrameStep normSum c1Detector (some (10/3, 0)) 1).2.2 =
      some (medianQ (processFrameStep normSum c1Detector (some (10/3, 0)) 1).1.prev_speeds) ∧
    medianQ [10, 12, 11, 50, 11] = 11 :=
  process_frame_reported_speed_spec normSum c1Detector (some (10/3, 0)) 1 12
    (by decide)
    (by norm_num [processFrameStep, trackUpdate, slideAppend, gapSpeed, perspectiveFactor,
      linspaceW, weightedAverage, clampSpeed, signQ, c1Detector, normSum])

/-- C3: the rate limiter clamps a new weighted speed that differs from the
last previous speed by more than `max_speed_change` to
`previous + max_speed_change * sign(new - previous)`, leaves it unchanged
otherwise, never moves more than `max_speed_change` from the previous speed,
and consequently `process_frame` preserves the invariant that consecutive
entries of `prev_speeds` differ by at most `max_speed_change`. -/
theorem rate_limit_spec :
    (∀ prev_speed max_change new_speed : ℚ,
      max_change < |new_speed - prev_speed| →
      clampSpeed prev_speed max_change new_speed =
        prev_speed + max_change * signQ (new_speed - prev_speed)) ∧
    (∀ prev_speed max_change new_speed : ℚ,
      |new_speed - prev_speed| ≤ max_change →
      clampSpeed prev_speed max_change new_speed = new_speed) ∧
    (∀ prev_speed max_change new_speed : ℚ, 0 ≤ max_change →
      |clampSpeed prev_speed max_change new_speed - prev_speed| ≤ max_change) ∧
    (∀ (normFn : ℚ → ℚ → ℚ) (s : VehicleSpeedDetector) (det : Option (ℚ × ℚ))
      (frame_height : ℚ), 0 ≤ s.max_speed_change →
      s.prev_speeds.Chain' (fun a b => |b - a| ≤ s.max_speed_change) →
      ((processFrameStep normFn s det frame_height).1.prev_speeds).Chain'
        (fun a b => |b - a| ≤ s.max_speed_change)) := by
  refine ⟨?_, ?_, clampSpeed_abs_le, ?_⟩
  · intro prev_speed max_change new_speed h
    unfold clampSpeed
    rw [if_pos h]
  · intro prev_speed max_change new_speed h
    unfold clampSpeed
    rw [if_neg (not_lt.mpr h)]
  · intro normFn s det frame_height hmc hchain
    cases hsel : s.object_selected with
    | false =>
      rw [processFrameStep_not_selected normFn s det frame_height hsel]
      exact hchain
    | true =>
      cases det with
      | none =>
        rw [processFrameStep_none]
        exact hchain
      | some c =>
        rw [processFrameStep_selected normFn s c frame_height hsel]
        simp only [trackUpdate]
        by_cases hlen : 1 < (slideAppend s.speed_window s.prev_centers c).length
        · rw [if_pos hlen]
          apply slideAppend_chain _ _ _ _ hchain
          intro l hl
          rw [Option.mem_def] at hl
          rw [hl]
          exact clampSpeed_abs_le _ _ _ hmc
        · rw [if_neg hlen]
          exact hchain

/-- C3 witness: clamping 50 km/h against a previous 10 km/h with the default
10 km/h bound moves at most 10 km/h. -/
theorem rate_limit_witness : |clampSpeed 10 10 50 - 10| ≤ 10 :=
  rate_limit_spec.2.2.1 10 10 50 (by norm_num)

/-- C4: the perspective correction factor is exactly
`1 + 0.5 * (center_y / frame_height)`, equals 1 at `center_y = 0`, and is
monotonically non-decreasing in `center_y` for a positive frame height. -/
theorem perspectiveFactor_spec (frame_height : ℚ) (hfh : 0 < frame_height) :
    (∀ center_y, perspectiveFactor frame_height center_y
      = 1 + 0.5 * (center_y / frame_height)) ∧
    perspectiveFactor frame_height 0 = 1 ∧
    (∀ cy cy', cy ≤ cy' →
      perspectiveFactor frame_height cy ≤ perspectiveFactor frame_height cy') := by
  refine ⟨fun cy => by rw [perspectiveFactor]; ring, by rw [perspectiveFactor]; norm_num, ?_⟩
  intro cy cy' h
  have hdiv : cy / frame_height ≤ cy' / frame_height := by gcongr
  unfold perspectiveFactor
  linarith

/-- C4 witness: at a 720-pixel frame height the factor is 1 at the top row
and non-decreasing from row 100 to row 200. -/
theorem perspectiveFactor_witness :
    perspectiveFactor 720 0 = 1 ∧
    perspectiveFactor 720 100 ≤ perspectiveFactor 720 200 :=
  ⟨(perspectiveFactor_spec 720 (by norm_num)).2.1,
    (perspectiveFactor_spec 720 (by norm_num)).2.2 100 200 (by norm_num)⟩

/-- C5: one `process_frame` step keeps both histories within the
`speed_window` bound (so, starting from the empty histories, they are
fixed-size sliding windows). -/
theorem history_window_bound (normFn : ℚ → ℚ → ℚ) (s : VehicleSpeedDetector)
    (det : Option (ℚ × ℚ)) (frame_height : ℚ)
    (hc : s.prev_centers.length ≤ s.speed_window)
    (hs : s.prev_speeds.length ≤ s.speed_window) :
    (processFrameStep normFn s det frame_height).1.prev_centers.length ≤ s.speed_window ∧
    (processFrameStep normFn s det frame_height).1.prev_speeds.length ≤ s.speed_window := by
  cases hsel : s.object_selected with
  | false =>
    rw [processFrameStep_not_selected normFn s det frame_height hsel]
    exact ⟨hc, hs⟩
  | true =>
    cases det with
    | none =>
      rw [processFrameStep_none]
      exact ⟨hc, hs⟩
    | some c =>
      rw [processFrameStep_selected normFn s c frame_height hsel]
      simp only [trackUpdate]
      by_cases hlen : 1 < (slideAppend s.speed_window s.prev_centers c).length
      · rw [if_pos hlen]
        exact ⟨slideAppend_length _ _ _ hc, slideAppend_length _ _ _ hs⟩
      · rw [if_neg hlen]
        exact ⟨slideAppend_length _ _ _ hc, hs⟩

/-- C5 witness: the bound at the concrete state with a one-entry center
history and a one-entry speed history (window 5). -/
theorem history_window_witness :
    (processFrameStep normSum c1Detector (some (10/3, 0)) 1).1.prev_centers.length
      ≤ c1Detector.speed_window ∧
    (processFrameStep normSum c1Detector (some (10/3, 0)) 1).1.prev_speeds.length
      ≤ c1Detector.speed_window :=
  history_window_bound normSum c1Detector (some (10/3, 0)) 1 (by decide) (by decide)

/-- C6: a frame with no matching blob leaves the detector state (hence both
histories) unchanged and reports no speed, and whenever the post-step
position history has fewer than two entries the reported speed is `none`. -/
theorem no_match_no_update (normFn : ℚ → ℚ → ℚ) (s : VehicleSpeedDetector)
    (frame_height : ℚ) :
    processFrameStep normFn s none frame_height = (s, none, none) ∧
    ∀ det, (processFrameStep normFn s det frame_height).1.prev_centers.length < 2 →
      (processFrameStep normFn s det frame_height).2.1 = none := by
  refine ⟨processFrameStep_none normFn s frame_height, ?_⟩
  intro det hlt
  cases hsel : s.object_selected with
  | false => rw [processFrameStep_not_selected normFn s det frame_height hsel]
  | true =>
    cases det with
    | none => rw [processFrameStep_none]
    | some c =>
      rw [processFrameStep_selected normFn s c frame_height hsel] at hlt ⊢
      simp only [trackUpdate] at hlt ⊢
      by_cases hlen : 1 < (slideAppend s.speed_window s.prev_centers c).length
      · exfalso
        rw [if_pos hlen] at hlt
        simp at hlt
        omega
      · rw [if_neg hlen]

/-- C6 witness: from an empty-history tracking state, a matched blob yields
a single-entry position history and a `none` speed. -/
theorem no_match_witness :
    processFrameStep normSum c1Detector none 1 = (c1Detector, none, none) :=
  (no_match_no_update normSum c1Detector 1).1

/-- C7 counterexample: an existing track with one position receives two
appended positions in a single `update` pass when two detections both fall
within the 50 px matching threshold of it — already-matched tracks are not
excluded from later associations, so a track can be updated more than once
per pass. -/
theorem track_double_update_cex :
    ((MultiVehicleTracker.update (fun q => q) c7Tracker [(0, 0, 0, 0), (0, 0, 0, 0)] 10).vehicles.map
      (fun p => p.2.positions.length)) = [3] ∧ ¬ ((3 : ℕ) ≤ 1 + 1) := by
  constructor
  · norm_num [MultiVehicleTracker.update, MultiVehicleTracker.assocOne, findClosest,
      VehicleTrack.updateWith, VehicleTrack.is_active, dist2, newTrack, c7Tracker,
      List.foldl, List.filter, List.contains]
  · decide

/-- C7 (amended): within one `update` pass each individual detection updates
at most one existing track (every track whose id differs from the chosen
association survives that detection unchanged), but a single track may
receive several updates in one pass, one per detection that associates to
it. -/
theorem assoc_updates_at_most_one_per_detection (sqrtQ : ℚ → ℚ)
    (state : MultiVehicleTracker × List ℕ) (bbox : ℚ × ℚ × ℚ × ℚ) (now : ℚ) :
    ∃ c : Option ℕ, ∀ p ∈ state.1.vehicles, some p.1 ≠ c →
      p ∈ (MultiVehicleTracker.assocOne sqrtQ state bbox now).1.vehicles := by
  simp only [MultiVehicleTracker.assocOne]
  refine ⟨findClosest state.1.vehicles now
    (bbox.1 + bbox.2.2.1 / 2, bbox.2.1 + bbox.2.2.2 / 2), ?_⟩
  intro p hp hne
  cases h : findClosest state.1.vehicles now
      (bbox.1 + bbox.2.2.1 / 2, bbox.2.1 + bbox.2.2.2 / 2) with
  | none =>
    exact List.mem_append_left _ hp
  | some cid =>
    have hne' : p.1 ≠ cid := fun hh => hne (by rw [hh, h])
    have hfix : (fun q => if q.1 = cid then (q.1, q.2.updateWith sqrtQ
        (bbox.1 + bbox.2.2.1 / 2, bbox.2.1 + bbox.2.2.2 / 2) now) else q) p = p := by
      simp [hne']
    have hmem2 := List.mem_map_of_mem (fun q => if q.1 = cid then (q.1, q.2.updateWith sqrtQ
        (bbox.1 + bbox.2.2.1 / 2, bbox.2.1 + bbox.2.2.2 / 2) now) else q) hp
    rw [hfix] at hmem2
    exact hmem2

/-- C7 witness: the amended theorem at the concrete one-track state and one
detection. -/
theorem assoc_witness :
    ∃ c : Option ℕ, ∀ p ∈ c7Tracker.vehicles, some p.1 ≠ c →
      p ∈ (MultiVehicleTracker.assocOne (fun q => q) (c7Tracker, []) (0, 0, 0, 0) 10).1.vehicles :=
  assoc_updates_at_most_one_per_detection (fun q => q) (c7Tracker, []) (0, 0, 0, 0) 10

/-- C8 counterexample: with 100 total frames and a frame counter of 200 the
progress property returns 200, exceeding 100 — the value is not clamped to
the interval [0, 100]. -/
theorem progress_exceeds_100_cex :
    progress 200 100 = 200 ∧ ¬ progress 200 100 ≤ 100 := by
  norm_num [progress]

/-- C8 (amended): progress equals `current_frame_no / total_frames * 100`
when `total_frames` is positive and 0 when it is unknown (non-positive); it
is never negative and stays at most 100 as long as the frame counter does
not exceed `total_frames`, but it is not clamped above — it exceeds 100 as
soon as `current_frame_no` does. -/
theorem progress_formula (current_frame_no : ℕ) (total_frames : ℤ) :
    (total_frames ≤ 0 → progress current_frame_no total_frames = 0) ∧
    (0 < total_frames → progress current_frame_no total_frames
      = ((current_frame_no : ℚ) / (total_frames : ℚ)) * 100) ∧
    0 ≤ progress current_frame_no total_frames ∧
    ((current_frame_no : ℤ) ≤ total_frames →
      progress current_frame_no total_frames ≤ 100) := by
  refine ⟨?_, ?_, ?_, ?_⟩
  · intro h
    rw [progress, if_neg (by omega)]
  · intro h
    rw [progress, if_pos h]
  · rw [progress]
    split
    · next h =>
      have h0 : (0 : ℚ) < (total_frames : ℚ) := by exact_mod_cast h
      positivity
    · exact le_refl 0
  · intro h
    rw [progress]
    split
    · next ht =>
      have h0 : (0 : ℚ) < (total_frames : ℚ) := by exact_mod_cast ht
      have hc : ((current_frame_no : ℚ)) ≤ ((total_frames : ℚ)) := by exact_mod_cast h
      have hdiv : (current_frame_no : ℚ) / (total_frames : ℚ) ≤ 1 :=
        (div_le_one h0).mpr hc
      linarith
    · norm_num

/-- C8 witness: the amended theorem at 50 frames out of 100, giving 50%. -/
theorem progress_witness : progress 50 100 ≤ 100 :=
  (progress_formula 50 100).2.2.2 (by decide)

/-- C9: for positive known distance and frame width the calibration scale
`known_distance_m / (frame_width * cos(30°))` is strictly positive, and
doubling the frame width exactly halves it. -/
theorem set_video_info_scale_spec (known_distance_m frame_width : ℝ)
    (hk : 0 < known_distance_m) (hw : 0 < frame_width) :
    0 < set_video_info_scale known_distance_m frame_width ∧
    set_video_info_scale known_distance_m (2 * frame_width) =
      set_video_info_scale known_distance_m frame_width / 2 := by
  have hcos : Real.cos (30 * Real.pi / 180) = Real.sqrt 3 / 2 := by
    rw [show (30 * Real.pi / 180 : ℝ) = Real.pi / 6 by ring, Real.cos_pi_div_six]
  have h3 : (0 : ℝ) < Real.sqrt 3 := by positivity
  constructor
  · rw [set_video_info_scale, hcos]
    positivity
  · rw [set_video_info_scale, set_video_info_scale, hcos]
    have hw' : frame_width ≠ 0 := ne_of_gt hw
    have h3' : Real.sqrt 3 ≠ 0 := ne_of_gt h3
    field_simp
    ring

/-- C9 witness: at the documented calibration (10 m over a 1280-pixel
frame), doubling the width to 2560 halves the scale. -/
theorem set_video_info_scale_witness :
    0 < set_video_info_scale 10 1280 ∧
    set_video_info_scale 10 2560 = set_video_info_scale 10 1280 / 2 := by
  have h := set_video_info_scale_spec 10 1280 (by norm_num) (by norm_num)
  refine ⟨h.1, ?_⟩
  have h2 := h.2
  norm_num at h2
  exact h2

/-- C10: a track with an empty speed list yields `none` for its current,
average and maximum speed, and (for duplicate-free vehicle ids) a track
appears in `get_speed_statistics` exactly when it has at least one recorded
speed. -/
theorem track_speed_statistics_spec :
    (∀ t : VehicleTrack, t.speeds = [] →
      t.current_speed = none ∧ t.average_speed = none ∧ t.max_speed = none) ∧
    (∀ m : MultiVehicleTracker, (m.vehicles.map Prod.fst).Nodup →
      ∀ (vid : ℕ) (t : VehicleTrack), (vid, t) ∈ m.vehicles →
        ((∃ e, (vid, e) ∈ m.get_speed_statistics) ↔ t.speeds ≠ [])) := by
  constructor
  · intro t ht
    refine ⟨?_, ?_, ?_⟩
    · simp [VehicleTrack.current_speed, ht]
    · simp [VehicleTrack.average_speed, ht]
    · simp [VehicleTrack.max_speed, ht]
  · intro m hnd vid t hmem
    constructor
    · rintro ⟨e, he⟩
      simp only [MultiVehicleTracker.get_speed_statistics] at he
      rcases List.mem_map.mp he with ⟨p, hpfil, hpe⟩
      rcases List.mem_filter.mp hpfil with ⟨hpv, hpg⟩
      have hp1 : p.1 = vid := congrArg Prod.fst hpe
      have hpv' : (vid, p.2) ∈ m.vehicles := by
        rw [← hp1]
        exact hpv
      have hpt : p.2 = t := nodup_keys_mem_unique hnd hpv' hmem
      intro habs
      rw [hpt, habs] at hpg
      simp at hpg
    · intro hne
      refine ⟨(t.current_speed, t.average_speed, t.max_speed), ?_⟩
      simp only [MultiVehicleTracker.get_speed_statistics]
      refine List.mem_map.mpr ⟨(vid, t), List.mem_filter.mpr ⟨hmem, ?_⟩, rfl⟩
      simp [hne]

/-- C10 witness: a freshly spawned track has no speeds and all three derived
speeds are `none`. -/
theorem track_statistics_witness :
    (newTrack 0 (0, 0) 0).current_speed = none ∧
    (newTrack 0 (0, 0) 0).average_speed = none ∧
    (newTrack 0 (0, 0) 0).max_speed = none :=
  track_speed_statistics_spec.1 (newTrack 0 (0, 0) 0) rfl

end CarSpeed
